import Mathlib

/-!
Shallow embedding of the fio mmap I/O engine (src/engines/mmap.c) and
verification of its window-manager behaviour.

Modelling conventions:
* Machine integers (`size_t`, `off_t`, `unsigned long long`) are modelled as
  `Nat`; the quantities involved (offsets, lengths, a 1 GiB budget) never
  approach 2^64, so wrap-around is irrelevant to the properties below.
* Pointers are modelled as addresses: `Option Nat` for `f->mmap_ptr`
  (`none` is the NULL pointer) and `Int` for the pointer arithmetic that
  produces `io_u->mmap_data`.
* OS calls (`mmap`, `munmap`, `madvise`, `msync`) are modelled by an
  environment that fixes each call's outcome for the call under scrutiny,
  and every function returns the trace of the OS calls it performed,
  including the `td_verror` error records.
-/

namespace MmapEngine

/-- I/O direction of a request. `sync` stands for every direction with
`ddir_sync(ddir)` true; the engine only distinguishes read, write and sync. -/
inductive DDir where
  | read
  | write
  | sync
deriving DecidableEq

/-- Advice constants passed to `madvise`. -/
inductive Advice where
  | sequential
  | random
  | dontneed
deriving DecidableEq

def PROT_READ : Nat := 1
def PROT_WRITE : Nat := 2

/-- One OS-level call performed by the engine, or one `td_verror` record. -/
inductive OsCall where
  | munmapCall (addr : Nat) (len : Nat)
  | mmapCall (len : Nat) (prot : Nat) (off : Nat)
  | madviseCall (addr : Int) (len : Nat) (adv : Advice)
  | msyncCall (addr : Int) (len : Nat)
  | copyToBuf (addr : Int) (len : Nat)
  | copyFromBuf (addr : Int) (len : Nat)
  | verror (e : Nat) (msg : String)
deriving DecidableEq

/-- The fields of `struct thread_data` the engine reads.  `rw`, `wr`,
`random` model `td_rw(td)`, `td_write(td)`, `td_random(td)`; `verify`
models `td->o.verify != VERIFY_NONE`; `odirect` models `td->o.odirect`. -/
structure ThreadData where
  rw : Bool
  wr : Bool
  verify : Bool
  random : Bool
  odirect : Bool
deriving DecidableEq

/-- The fields of `struct fio_file` the engine reads and writes. -/
structure FioFile where
  mmap_ptr : Option Nat
  mmap_sz : Nat
  mmap_off : Nat
  io_size : Nat
  file_offset : Nat
deriving DecidableEq

/-- The fields of `struct io_u` the engine reads and writes.  `mmap_data`
and `error` are the output fields. -/
structure IoU where
  offset : Nat
  buflen : Nat
  ddir : DDir
  xfer_buflen : Nat
  mmap_data : Int
  error : Nat
deriving DecidableEq

/-- Outcome of the one `mmap` system call a prepare may perform:
either a mapped base address, or `MAP_FAILED` with an errno. -/
inductive MapResult where
  | ok (base : Nat)
  | fail (errno : Nat)
deriving DecidableEq

/-- Outcomes of the OS calls a single prepare may perform.  `none` in an
`Option Nat` field means the call succeeds; `some e` means it fails and
`errno` is `e`. -/
structure OsEnv where
  munmapResult : Option Nat
  mmapResult : MapResult
  madviseResult : Option Nat
deriving DecidableEq

/-- The numeric value of a possibly-NULL base pointer, as used by the
source's raw pointer arithmetic (`NULL` is address 0). -/
def ptrVal : Option Nat → Int
  | none => 0
  | some p => (p : Int)

/-- Protection flags chosen by `fio_mmap_file` from the access mode
(src/engines/mmap.c:31-39). -/
def mmapProt (td : ThreadData) : Nat :=
  if td.rw then PROT_READ + PROT_WRITE
  else if td.wr then PROT_WRITE + (if td.verify then PROT_READ else 0)
  else PROT_READ

/-- Shallow embedding of `fio_mmap_file` (src/engines/mmap.c:25-64).
Returns the updated file, the C return value `ret`, and the trace of OS
calls performed.  The source initializes `ret = 0` and never assigns it
again: the `goto err` paths for `mmap` and `madvise` failures record an
error with `td_verror` but still return 0.  On `mmap` failure the source
sets `f->mmap_ptr = NULL`; on `madvise` failure it leaves the fresh
mapping in place. -/
def fio_mmap_file (env : OsEnv) (td : ThreadData) (f : FioFile)
    (length off : Nat) : FioFile × Nat × List OsCall :=
  let flags := mmapProt td
  match env.mmapResult with
  | MapResult.fail e =>
      ({ f with mmap_ptr := none }, 0,
        [OsCall.mmapCall length flags off, OsCall.verror e "mmap"])
  | MapResult.ok base =>
      let f1 := { f with mmap_ptr := some base }
      let adv := if !td.random then Advice.sequential else Advice.random
      let tr := [OsCall.mmapCall length flags off,
                 OsCall.madviseCall (base : Int) length adv]
      match env.madviseResult with
      | some e => (f1, 0, tr ++ [OsCall.verror e "madvise"])
      | none => (f1, 0, tr)

def EIO : Nat := 5

/-- The window-replacement tail of `fio_mmapio_prep`
(src/engines/mmap.c:87-99): set the new window size to
`min(mmap_map_size, io_size)`, the new window offset to the request's
offset, map, and on `ret == 0` resolve the request's address. -/
def remapWindow (env : OsEnv) (mmap_map_size : Nat) (td : ThreadData)
    (f : FioFile) (u : IoU) (tr0 : List OsCall) :
    FioFile × IoU × Nat × List OsCall :=
  let sz := if mmap_map_size > f.io_size then f.io_size else mmap_map_size
  let f1 := { f with mmap_sz := sz, mmap_off := u.offset }
  let r := fio_mmap_file env td f1 f1.mmap_sz f1.mmap_off
  let f2 := r.1
  let ret := r.2.1
  let u1 := if ret = 0 then
      { u with mmap_data := ptrVal f2.mmap_ptr + (u.offset : Int)
          - (f2.mmap_off : Int) - (f2.file_offset : Int) }
    else u
  (f2, u1, ret, tr0 ++ r.2.2)

/-- Shallow embedding of `fio_mmapio_prep` (src/engines/mmap.c:66-103).
Returns the updated file, the updated request, the C return value, and
the trace of OS calls performed. -/
def fio_mmapio_prep (env : OsEnv) (mmap_map_size : Nat) (td : ThreadData)
    (f : FioFile) (u : IoU) : FioFile × IoU × Nat × List OsCall :=
  if u.buflen > mmap_map_size then
    (f, u, EIO, [])
  else if u.offset ≥ f.mmap_off ∧ u.offset + u.buflen < f.mmap_off + f.mmap_sz then
    (f, { u with mmap_data := ptrVal f.mmap_ptr + (u.offset : Int)
        - (f.mmap_off : Int) - (f.file_offset : Int) }, 0, [])
  else
    match f.mmap_ptr with
    | some p =>
        match env.munmapResult with
        | some e => (f, u, e, [OsCall.munmapCall p f.mmap_sz])
        | none =>
            remapWindow env mmap_map_size td { f with mmap_ptr := none } u
              [OsCall.munmapCall p f.mmap_sz]
    | none => remapWindow env mmap_map_size td f u []

/-- Outcomes of the OS calls a single queue (execute) may perform. -/
structure QueueEnv where
  msyncWinResult : Option Nat
  msyncReqResult : Option Nat
  madviseReqResult : Option Nat
deriving DecidableEq

def FIO_Q_COMPLETED : Nat := 0

/-- Shallow embedding of `fio_mmapio_queue` (src/engines/mmap.c:105-137).
Returns the (unmodified) file, the updated request, the trace of OS calls
performed, and the return value — always `FIO_Q_COMPLETED`. -/
def fio_mmapio_queue (env : QueueEnv) (td : ThreadData) (f : FioFile)
    (u : IoU) : FioFile × IoU × List OsCall × Nat :=
  let s1 : IoU × List OsCall :=
    match u.ddir with
    | DDir.read => (u, [OsCall.copyToBuf u.mmap_data u.xfer_buflen])
    | DDir.write => (u, [OsCall.copyFromBuf u.mmap_data u.xfer_buflen])
    | DDir.sync =>
        match env.msyncWinResult with
        | some e => ({ u with error := e },
            [OsCall.msyncCall (ptrVal f.mmap_ptr) f.mmap_sz,
             OsCall.verror e "msync"])
        | none => (u, [OsCall.msyncCall (ptrVal f.mmap_ptr) f.mmap_sz])
  if td.odirect ∧ u.ddir ≠ DDir.sync then
    let s2 : IoU × List OsCall :=
      match env.msyncReqResult with
      | some e => ({ s1.1 with error := e },
          [OsCall.msyncCall u.mmap_data u.xfer_buflen,
           OsCall.verror e "msync"])
      | none => (s1.1, [OsCall.msyncCall u.mmap_data u.xfer_buflen])
    let s3 : IoU × List OsCall :=
      match env.madviseReqResult with
      | some e => ({ s2.1 with error := e },
          [OsCall.madviseCall u.mmap_data u.xfer_buflen Advice.dontneed,
           OsCall.verror e "madvise"])
      | none => (s2.1,
          [OsCall.madviseCall u.mmap_data u.xfer_buflen Advice.dontneed])
    (f, s3.1, s1.2 ++ s2.2 ++ s3.2, FIO_Q_COMPLETED)
  else
    (f, s1.1, s1.2, FIO_Q_COMPLETED)

/-- `MMAP_TOTAL_SZ` (src/engines/mmap.c:20): the fixed 1 GiB budget. -/
def MMAP_TOTAL_SZ : Nat := 1 * 1024 * 1024 * 1024

/-- The shift-counting loop of `fio_mmapio_init`
(src/engines/mmap.c:144-151): `do { mask >>= 1; if (!mask) break;
shift++; } while (1)`.  Each recursive call is one loop iteration whose
halved mask is still nonzero. -/
def shiftCount (mask shift : Nat) : Nat :=
  if h : mask / 2 = 0 then shift else shiftCount (mask / 2) (shift + 1)
termination_by mask
decreasing_by omega

/-- Shallow embedding of `fio_mmapio_init` (src/engines/mmap.c:139-155).
Returns `(mmap_map_size, mmap_map_mask)`: the per-file window size
`MMAP_TOTAL_SZ / nr_files`, and `1UL << shift` for the counted shifts. -/
def fio_mmapio_init (nr_files : Nat) : Nat × Nat :=
  let mmap_map_size := MMAP_TOTAL_SZ / nr_files
  let shift := shiftCount mmap_map_size 0
  (mmap_map_size, 2 ^ shift)

/-! Concrete fixtures used by witnesses and counterexamples. -/

/-- A sequential read-only workload with no `odirect`. -/
def td0 : ThreadData := ⟨false, false, false, false, false⟩

/-- A sequential read-only workload with `odirect` set. -/
def tdDirect : ThreadData := ⟨false, false, false, false, true⟩

/-- A freshly opened 1000-byte file: no window yet. -/
def fFresh : FioFile := ⟨none, 0, 0, 1000, 0⟩

/-- A freshly opened 100-byte file: no window yet. -/
def f100 : FioFile := ⟨none, 0, 0, 100, 0⟩

/-- A 1000-byte file with a mapped window `[0, 256)` at base 4096. -/
def fWin : FioFile := ⟨some 4096, 256, 0, 1000, 0⟩

/-- A read request for bytes `[0, 100)`. -/
def u0 : IoU := ⟨0, 100, DDir.read, 100, 0, 0⟩

/-- A read request for bytes `[0, 50)`. -/
def uW : IoU := ⟨0, 50, DDir.read, 50, 0, 0⟩

/-- A read request for bytes `[0, 11)`. -/
def uBig : IoU := ⟨0, 11, DDir.read, 11, 0, 0⟩

/-- A read request for bytes `[255, 256)` — it ends exactly at `fWin`'s
window end boundary. -/
def uBoundary : IoU := ⟨255, 1, DDir.read, 1, 0, 0⟩

/-- A read request for bytes `[10, 30)` — contained in a `[0, 256)` window. -/
def uIn : IoU := ⟨10, 20, DDir.read, 20, 0, 0⟩

/-- A sync request. -/
def uSync : IoU := ⟨0, 0, DDir.sync, 0, 0, 0⟩

/-- A read request whose address has been resolved to 4096. -/
def uRead : IoU := ⟨0, 100, DDir.read, 100, 4096, 0⟩

/-- All OS calls succeed; `mmap` returns base 4096. -/
def envOk : OsEnv := ⟨none, MapResult.ok 4096, none⟩

/-- All OS calls succeed; `mmap` returns base 8192. -/
def envOk2 : OsEnv := ⟨none, MapResult.ok 8192, none⟩

/-- `mmap` fails with `ENOMEM` (12). -/
def envMmapFail : OsEnv := ⟨none, MapResult.fail 12, none⟩

/-- `mmap` succeeds at base 4096, `madvise` fails with `EINVAL` (22). -/
def envMadviseFail : OsEnv := ⟨none, MapResult.ok 4096, some 22⟩

/-- All queue-phase OS calls succeed. -/
def qEnvOk : QueueEnv := ⟨none, none, none⟩

/-- The whole-window `msync` fails with errno 30. -/
def qEnvWinFail : QueueEnv := ⟨some 30, none, none⟩

/-- The cache-drop `msync` fails with errno 5 and the cache-drop
`madvise` fails with errno 22. -/
def qEnvDropFail : QueueEnv := ⟨none, some 5, some 22⟩

/-! Helper lemmas. -/

/-- The shift accumulator is additive: the loop adds to `shift` a count
depending only on `mask`. -/
theorem shiftCount_add : ∀ w s, shiftCount w s = shiftCount w 0 + s := by
  intro w
  induction w using Nat.strong_induction_on with
  | _ w ih =>
    intro s
    by_cases h : w / 2 = 0
    · conv_lhs => rw [shiftCount]
      conv_rhs => rw [shiftCount]
      simp [h]
    · conv_lhs => rw [shiftCount]
      conv_rhs => rw [shiftCount]
      simp only [dif_neg h]
      rw [ih (w / 2) (by omega) (s + 1), ih (w / 2) (by omega) (0 + 1)]
      omega

/-- The shift-counting loop computes `Nat.log2`. -/
theorem shiftCount_eq_log2 : ∀ w, shiftCount w 0 = Nat.log2 w := by
  intro w
  induction w using Nat.strong_induction_on with
  | _ w ih =>
    conv_lhs => rw [shiftCount]
    conv_rhs => rw [Nat.log2]
    by_cases h : w / 2 = 0
    · have h2 : ¬ w ≥ 2 := by omega
      simp [h, h2]
    · have h2 : w ≥ 2 := by omega
      simp only [dif_neg h, if_pos h2]
      rw [shiftCount_add, ih (w / 2) (by omega)]

/-- `fio_mmap_file` never changes the window geometry, always returns 0
(the source never assigns `ret` after its initialization), and its trace
contains the `mmap` call. -/
theorem fio_mmap_file_spec (env : OsEnv) (td : ThreadData) (f : FioFile)
    (length off : Nat) :
    (fio_mmap_file env td f length off).1.mmap_sz = f.mmap_sz ∧
    (fio_mmap_file env td f length off).1.mmap_off = f.mmap_off ∧
    (fio_mmap_file env td f length off).1.io_size = f.io_size ∧
    (fio_mmap_file env td f length off).1.file_offset = f.file_offset ∧
    (fio_mmap_file env td f length off).2.1 = 0 ∧
    OsCall.mmapCall length (mmapProt td) off ∈
      (fio_mmap_file env td f length off).2.2 := by
  unfold fio_mmap_file
  rcases env.mmapResult with base | e <;>
    rcases env.madviseResult with _ | e2 <;> simp

/-- The `if`-expression the source uses for the new window size equals
`min`. -/
theorem windowSize_eq_min (msz io : Nat) :
    (if msz > io then io else msz) = min msz io := by
  split <;> omega

/-- `remapWindow` installs a window of length `min mmap_map_size io_size`
starting at the request's offset, returns 0, and performs an `mmap` call
of exactly that length at that offset. -/
theorem remapWindow_spec (env : OsEnv) (msz : Nat) (td : ThreadData)
    (f : FioFile) (u : IoU) (tr0 : List OsCall) :
    (remapWindow env msz td f u tr0).1.mmap_sz = min msz f.io_size ∧
    (remapWindow env msz td f u tr0).1.mmap_off = u.offset ∧
    (remapWindow env msz td f u tr0).1.io_size = f.io_size ∧
    (remapWindow env msz td f u tr0).1.file_offset = f.file_offset ∧
    (remapWindow env msz td f u tr0).2.2.1 = 0 ∧
    OsCall.mmapCall (min msz f.io_size) (mmapProt td) u.offset ∈
      (remapWindow env msz td f u tr0).2.2.2 := by
  have h := fio_mmap_file_spec env td
    { f with mmap_sz := if msz > f.io_size then f.io_size else msz,
             mmap_off := u.offset }
    (if msz > f.io_size then f.io_size else msz) u.offset
  unfold remapWindow
  refine ⟨?_, ?_, ?_, ?_, ?_, ?_⟩ <;>
    simp only [windowSize_eq_min] at h ⊢ <;>
    simp [h.1, h.2.1, h.2.2.1, h.2.2.2.1, h.2.2.2.2.1, h.2.2.2.2.2]

/-- The containment fast path: when the request lies inside the current
window (inclusive start, strictly exclusive end) and is not oversized,
prepare changes nothing, performs no OS call, returns 0, and only
resolves the request's address. -/
theorem prep_hit (env : OsEnv) (msz : Nat) (td : ThreadData)
    (f : FioFile) (u : IoU)
    (hlen : u.buflen ≤ msz)
    (hin : u.offset ≥ f.mmap_off ∧
      u.offset + u.buflen < f.mmap_off + f.mmap_sz) :
    fio_mmapio_prep env msz td f u =
      (f, { u with mmap_data := ptrVal f.mmap_ptr + (u.offset : Int)
          - (f.mmap_off : Int) - (f.file_offset : Int) }, 0, []) := by
  unfold fio_mmapio_prep
  rw [if_neg (by omega), if_pos hin]

/-- A miss (failed containment test) of a not-oversized request always
performs at least one OS call: either the `munmap` of the old window or
the `mmap` of the new one. -/
theorem prep_miss_trace_ne_nil (env : OsEnv) (msz : Nat) (td : ThreadData)
    (f : FioFile) (u : IoU)
    (hlen : u.buflen ≤ msz)
    (hmiss : ¬ (u.offset ≥ f.mmap_off ∧
      u.offset + u.buflen < f.mmap_off + f.mmap_sz)) :
    (fio_mmapio_prep env msz td f u).2.2.2 ≠ [] := by
  unfold fio_mmapio_prep
  rw [if_neg (by omega), if_neg hmiss]
  rcases hfp : f.mmap_ptr with _ | p
  · have h := remapWindow_spec env msz td f u []
    simp only [hfp]
    exact List.ne_nil_of_mem h.2.2.2.2.2
  · rcases hmun : env.munmapResult with _ | e
    · have h := remapWindow_spec env msz td { f with mmap_ptr := none } u
        [OsCall.munmapCall p f.mmap_sz]
      simp only [hfp, hmun]
      exact List.ne_nil_of_mem h.2.2.2.2.2
    · simp only [hfp, hmun]
      simp

/-! Claim theorems. -/

/-- Claim C1 (code bug): the claim says a mapping or advisory failure in a
window-establishing prepare makes prepare return the nonzero OS error and
clears the window state.  The code disagrees: `fio_mmap_file` records the
error through `td_verror` but never assigns `ret`, so prepare returns 0;
after an `mmap` failure the window metadata (`mmap_sz` = 256 here) stays
set with a NULL base, and after an `madvise` failure the mapped pointer
is retained.  This theorem evaluates prepare at both failing inputs. -/
theorem C1_error_swallowed :
    ((fio_mmapio_prep envMmapFail 256 td0 fFresh u0).2.2.1 = 0 ∧
     (fio_mmapio_prep envMmapFail 256 td0 fFresh u0).1.mmap_ptr = none ∧
     (fio_mmapio_prep envMmapFail 256 td0 fFresh u0).1.mmap_sz = 256 ∧
     OsCall.verror 12 "mmap" ∈
       (fio_mmapio_prep envMmapFail 256 td0 fFresh u0).2.2.2) ∧
    ((fio_mmapio_prep envMadviseFail 256 td0 fFresh u0).2.2.1 = 0 ∧
     (fio_mmapio_prep envMadviseFail 256 td0 fFresh u0).1.mmap_ptr = some 4096 ∧
     OsCall.verror 22 "madvise" ∈
       (fio_mmapio_prep envMadviseFail 256 td0 fFresh u0).2.2.2) := by
  decide

/-- Claim C2: a prepare that replaces the window establishes a window of
length `min(target window size, io_size)` starting at the request's
offset (requires the unmap of any previous window to succeed). -/
theorem C2_window_replacement (env : OsEnv) (msz : Nat) (td : ThreadData)
    (f : FioFile) (u : IoU)
    (hlen : u.buflen ≤ msz)
    (hmiss : ¬ (u.offset ≥ f.mmap_off ∧
      u.offset + u.buflen < f.mmap_off + f.mmap_sz))
    (hun : f.mmap_ptr = none ∨ env.munmapResult = none) :
    (fio_mmapio_prep env msz td f u).1.mmap_sz = min msz f.io_size ∧
    (fio_mmapio_prep env msz td f u).1.mmap_off = u.offset := by
  unfold fio_mmapio_prep
  rw [if_neg (by omega), if_neg hmiss]
  rcases hfp : f.mmap_ptr with _ | p
  · have h := remapWindow_spec env msz td f u []
    simp only [hfp] at h ⊢
    exact ⟨h.1, h.2.1⟩
  · rcases hun with hun | hun
    · rw [hfp] at hun
      exact absurd hun (by simp)
    · have h := remapWindow_spec env msz td { f with mmap_ptr := none } u
        [OsCall.munmapCall p f.mmap_sz]
      simp only [hfp, hun] at h ⊢
      exact ⟨h.1, h.2.1⟩

/-- Witness for C2, at the spec's own scenario: target window size 256
against a 100-byte file yields a window of length 100 at offset 0. -/
theorem C2_witness :
    (fio_mmapio_prep envOk 256 td0 f100 uW).1.mmap_sz = 100 ∧
    (fio_mmapio_prep envOk 256 td0 f100 uW).1.mmap_off = 0 := by
  have h := C2_window_replacement envOk 256 td0 f100 uW
    (by decide) (by decide) (Or.inl rfl)
  exact ⟨h.1.trans (by decide), h.2⟩

/-- Claim C3: a request longer than the target window size is rejected
with `EIO`, no OS call is made, and both the file's window state and the
request are left unchanged. -/
theorem C3_request_too_large (env : OsEnv) (msz : Nat) (td : ThreadData)
    (f : FioFile) (u : IoU) (h : msz < u.buflen) :
    fio_mmapio_prep env msz td f u = (f, u, EIO, []) ∧ EIO ≠ 0 := by
  constructor
  · unfold fio_mmapio_prep
    rw [if_pos (by omega)]
  · decide

/-- Witness for C3: a 11-byte request against a 10-byte window size. -/
theorem C3_witness :
    fio_mmapio_prep envOk 10 td0 f100 uBig = (f100, uBig, EIO, []) :=
  (C3_request_too_large envOk 10 td0 f100 uBig (by decide)).1

/-- Claim C6 as stated is false: for a file count just above the 1 GiB
budget, `mmap_map_size` is 0 and the derived value is `2 ^ 0 = 1`, which
is not a power of two less than or equal to `mmap_map_size`. -/
theorem C6_counterexample :
    1 ≤ 1073741825 ∧
    (fio_mmapio_init 1073741825).1 = 0 ∧
    (fio_mmapio_init 1073741825).2 = 1 ∧
    ¬ ((fio_mmapio_init 1073741825).2 ≤ (fio_mmapio_init 1073741825).1) := by
  have h : fio_mmapio_init 1073741825 = (0, 1) := by
    simp [fio_mmapio_init, MMAP_TOTAL_SZ, shiftCount]
  exact ⟨by omega, by rw [h], by rw [h], by rw [h]; decide⟩

/-- Claim C6 (amended): for every file count `N` with
`1 ≤ N ≤ MMAP_TOTAL_SZ` (so that the window size is at least 1),
initialization computes `mmap_map_size = MMAP_TOTAL_SZ / N` and the
shift-counting loop makes `mmap_map_mask` the largest power of two less
than or equal to `mmap_map_size`. -/
theorem C6_pow2_floor (N : Nat) (h1 : 1 ≤ N) (h2 : N ≤ MMAP_TOTAL_SZ) :
    (fio_mmapio_init N).1 = MMAP_TOTAL_SZ / N ∧
    (∃ k, (fio_mmapio_init N).2 = 2 ^ k) ∧
    (fio_mmapio_init N).2 ≤ (fio_mmapio_init N).1 ∧
    ∀ k, 2 ^ k ≤ (fio_mmapio_init N).1 → 2 ^ k ≤ (fio_mmapio_init N).2 := by
  have hfi : fio_mmapio_init N =
      (MMAP_TOTAL_SZ / N, 2 ^ Nat.log2 (MMAP_TOTAL_SZ / N)) := by
    simp [fio_mmapio_init, shiftCount_eq_log2]
  have hw1 : 1 ≤ MMAP_TOTAL_SZ / N := (Nat.one_le_div_iff (by omega)).2 h2
  rw [hfi]
  refine ⟨rfl, ⟨_, rfl⟩, Nat.log2_self_le (by omega), ?_⟩
  intro k hk
  have hlt : 2 ^ k < 2 ^ (Nat.log2 (MMAP_TOTAL_SZ / N) + 1) :=
    lt_of_le_of_lt hk Nat.lt_log2_self
  have hk2 : k < Nat.log2 (MMAP_TOTAL_SZ / N) + 1 :=
    (Nat.pow_lt_pow_iff_right (by omega)).1 hlt
  exact Nat.pow_le_pow_right (by omega) (by omega)

/-- Witness for the amended C6 at the spec's scenario shape: 4 files
share the budget; the window size is `2 ^ 28` and so is its power-of-two
floor. -/
theorem C6_witness :
    1 ≤ 4 ∧ (4 : Nat) ≤ MMAP_TOTAL_SZ ∧
    (fio_mmapio_init 4).1 = MMAP_TOTAL_SZ / 4 ∧
    (fio_mmapio_init 4).2 ≤ (fio_mmapio_init 4).1 := by
  have h := C6_pow2_floor 4 (by decide) (by decide)
  exact ⟨by decide, by decide, h.1, h.2.2.1⟩

/-- Claim C10: when the file count exceeds the total budget the computed
window size is 0; the shift-counting loop still terminates (the model's
recursion is total) and produces `2 ^ 0 = 1`, which is strictly greater
than the window size. -/
theorem C10_zero_window_size (N : Nat) (h : MMAP_TOTAL_SZ < N) :
    fio_mmapio_init N = (0, 1) ∧
    (fio_mmapio_init N).1 < (fio_mmapio_init N).2 := by
  have h0 : MMAP_TOTAL_SZ / N = 0 := Nat.div_eq_of_lt h
  have he : fio_mmapio_init N = (0, 1) := by
    simp [fio_mmapio_init, h0, shiftCount]
  exact ⟨he, by rw [he]; decide⟩

/-- Witness for C10 at file count `2 ^ 30 + 5`. -/
theorem C10_witness :
    MMAP_TOTAL_SZ < 1073741829 ∧ fio_mmapio_init 1073741829 = (0, 1) :=
  ⟨by decide, (C10_zero_window_size 1073741829 (by decide)).1⟩

/-- Claim C4: a request whose range ends exactly at the current window's
end boundary is a miss — the window is replaced at the request's offset
and a new `mmap` call occurs; and in general the fast path (no OS call,
unchanged state, return 0) is taken exactly when `offset ≥ window_offset`
and `offset + length` is strictly below the window's end. -/
theorem C4_boundary_miss (env : OsEnv) (msz : Nat) (td : ThreadData)
    (f : FioFile) (u : IoU)
    (hlen : u.buflen ≤ msz)
    (hend : u.offset + u.buflen = f.mmap_off + f.mmap_sz)
    (hun : f.mmap_ptr = none ∨ env.munmapResult = none) :
    ((fio_mmapio_prep env msz td f u).1.mmap_off = u.offset ∧
     (fio_mmapio_prep env msz td f u).1.mmap_sz = min msz f.io_size ∧
     OsCall.mmapCall (min msz f.io_size) (mmapProt td) u.offset ∈
       (fio_mmapio_prep env msz td f u).2.2.2) ∧
    (∀ g v, v.buflen ≤ msz →
      (((fio_mmapio_prep env msz td g v).2.2.2 = ([] : List OsCall) ∧
        (fio_mmapio_prep env msz td g v).1 = g ∧
        (fio_mmapio_prep env msz td g v).2.2.1 = 0) ↔
       (v.offset ≥ g.mmap_off ∧
        v.offset + v.buflen < g.mmap_off + g.mmap_sz))) := by
  constructor
  · have hmiss : ¬ (u.offset ≥ f.mmap_off ∧
        u.offset + u.buflen < f.mmap_off + f.mmap_sz) := by omega
    unfold fio_mmapio_prep
    rw [if_neg (by omega), if_neg hmiss]
    rcases hfp : f.mmap_ptr with _ | p
    · have h := remapWindow_spec env msz td f u []
      simp only [hfp]
      exact ⟨h.2.1, h.1, h.2.2.2.2.2⟩
    · rcases hun with hun | hun
      · rw [hfp] at hun
        exact absurd hun (by simp)
      · have h := remapWindow_spec env msz td { f with mmap_ptr := none } u
          [OsCall.munmapCall p f.mmap_sz]
        simp only [hfp, hun]
        exact ⟨h.2.1, h.1, h.2.2.2.2.2⟩
  · intro g v hv
    constructor
    · intro hL
      by_cases hc : v.offset ≥ g.mmap_off ∧
          v.offset + v.buflen < g.mmap_off + g.mmap_sz
      · exact hc
      · exact absurd hL.1 (prep_miss_trace_ne_nil env msz td g v hv hc)
    · intro hc
      rw [prep_hit env msz td g v hv hc]
      exact ⟨rfl, rfl, rfl⟩

/-- Witness for C4: against the window `[0, 256)` of `fWin`, the request
`[255, 256)` ending exactly at the boundary forces a replacement at
offset 255 with a fresh `mmap` call. -/
theorem C4_witness :
    (fio_mmapio_prep envOk 256 td0 fWin uBoundary).1.mmap_off = 255 ∧
    OsCall.mmapCall (min 256 1000) (mmapProt td0) 255 ∈
      (fio_mmapio_prep envOk 256 td0 fWin uBoundary).2.2.2 := by
  have h := C4_boundary_miss envOk 256 td0 fWin uBoundary
    (by decide) (by decide) (Or.inr rfl)
  exact ⟨h.1.1, h.1.2.2⟩

/-- Claim C5: a second request contained in the window established by a
first prepare is served by the fast path: no OS call, the file's window
state is returned unchanged, and only the request's resolved address is
stored. -/
theorem C5_contained_reuse (env1 env2 : OsEnv) (msz : Nat)
    (td : ThreadData) (f : FioFile) (u1 u2 : IoU)
    (hlen : u2.buflen ≤ msz)
    (hin : u2.offset ≥ (fio_mmapio_prep env1 msz td f u1).1.mmap_off ∧
      u2.offset + u2.buflen <
        (fio_mmapio_prep env1 msz td f u1).1.mmap_off +
        (fio_mmapio_prep env1 msz td f u1).1.mmap_sz) :
    fio_mmapio_prep env2 msz td (fio_mmapio_prep env1 msz td f u1).1 u2 =
      ((fio_mmapio_prep env1 msz td f u1).1,
       { u2 with mmap_data :=
           ptrVal (fio_mmapio_prep env1 msz td f u1).1.mmap_ptr
           + (u2.offset : Int)
           - ((fio_mmapio_prep env1 msz td f u1).1.mmap_off : Int)
           - ((fio_mmapio_prep env1 msz td f u1).1.file_offset : Int) },
       0, []) :=
  prep_hit env2 msz td (fio_mmapio_prep env1 msz td f u1).1 u2 hlen hin

/-- Witness for C5: after `u0` establishes the window `[0, 256)` on the
fresh 1000-byte file, the contained request `[10, 30)` is prepared with
no OS call and an unchanged window, under a different OS environment. -/
theorem C5_witness :
    fio_mmapio_prep envOk2 256 td0
        (fio_mmapio_prep envOk 256 td0 fFresh u0).1 uIn =
      ((fio_mmapio_prep envOk 256 td0 fFresh u0).1,
       { uIn with
           mmap_data :=
             ptrVal (fio_mmapio_prep envOk 256 td0 fFresh u0).1.mmap_ptr
             + (uIn.offset : Int)
             - ((fio_mmapio_prep envOk 256 td0 fFresh u0).1.mmap_off : Int)
             - ((fio_mmapio_prep envOk 256 td0 fFresh u0).1.file_offset
               : Int) },
       0, []) :=
  C5_contained_reuse envOk envOk2 256 td0 fFresh u0 uIn
    (by decide) (by decide)

/-- Claim C7: a sync request flushes the whole current window — every
`msync` in its trace targets the window base for the full window length —
a flush failure is recorded on the request's error field, and execute
still returns `FIO_Q_COMPLETED` with the file state untouched. -/
theorem C7_sync_flushes_window (env : QueueEnv) (td : ThreadData)
    (f : FioFile) (u : IoU) (h : u.ddir = DDir.sync) :
    (fio_mmapio_queue env td f u).2.2.2 = FIO_Q_COMPLETED ∧
    (fio_mmapio_queue env td f u).1 = f ∧
    OsCall.msyncCall (ptrVal f.mmap_ptr) f.mmap_sz ∈
      (fio_mmapio_queue env td f u).2.2.1 ∧
    (∀ a l, OsCall.msyncCall a l ∈ (fio_mmapio_queue env td f u).2.2.1 →
      a = ptrVal f.mmap_ptr ∧ l = f.mmap_sz) ∧
    (env.msyncWinResult = none →
      (fio_mmapio_queue env td f u).2.1.error = u.error) ∧
    (∀ e, env.msyncWinResult = some e →
      (fio_mmapio_queue env td f u).2.1.error = e) := by
  rcases henv : env.msyncWinResult with _ | e <;>
    simp [fio_mmapio_queue, h, henv]

/-- Witness for C7: a failing whole-window `msync` records errno 30 on
the request and the call still completes. -/
theorem C7_witness :
    (fio_mmapio_queue qEnvWinFail td0 fWin uSync).2.2.2 = FIO_Q_COMPLETED ∧
    OsCall.msyncCall (ptrVal fWin.mmap_ptr) fWin.mmap_sz ∈
      (fio_mmapio_queue qEnvWinFail td0 fWin uSync).2.2.1 ∧
    (fio_mmapio_queue qEnvWinFail td0 fWin uSync).2.1.error = 30 := by
  have h := C7_sync_flushes_window qEnvWinFail td0 fWin uSync rfl
  exact ⟨h.1, h.2.2.1, h.2.2.2.2.2 30 rfl⟩

/-- Claim C8: cache-drop emulation runs exactly when `odirect` is set
and the request is not a sync: the trace then contains an `msync` and a
discard `madvise` on exactly the request's resolved address range, step
failures land in the request's error field, and the call still returns
`FIO_Q_COMPLETED`; without `odirect`, or for sync requests, no discard
`madvise` occurs (and no `msync` at all for non-sync requests). -/
theorem C8_cache_drop (env : QueueEnv) (td : ThreadData) (f : FioFile)
    (u : IoU) :
    (fio_mmapio_queue env td f u).2.2.2 = FIO_Q_COMPLETED ∧
    (td.odirect = true → u.ddir ≠ DDir.sync →
      (OsCall.msyncCall u.mmap_data u.xfer_buflen ∈
         (fio_mmapio_queue env td f u).2.2.1 ∧
       OsCall.madviseCall u.mmap_data u.xfer_buflen Advice.dontneed ∈
         (fio_mmapio_queue env td f u).2.2.1 ∧
       (∀ e, env.madviseReqResult = some e →
         (fio_mmapio_queue env td f u).2.1.error = e) ∧
       (∀ e, env.madviseReqResult = none → env.msyncReqResult = some e →
         (fio_mmapio_queue env td f u).2.1.error = e) ∧
       (env.madviseReqResult = none → env.msyncReqResult = none →
         (fio_mmapio_queue env td f u).2.1.error = u.error))) ∧
    ((td.odirect = false ∨ u.ddir = DDir.sync) →
      (∀ a l adv, OsCall.madviseCall a l adv ∉
        (fio_mmapio_queue env td f u).2.2.1) ∧
      (u.ddir ≠ DDir.sync →
        ∀ a l, OsCall.msyncCall a l ∉ (fio_mmapio_queue env td f u).2.2.1)) := by
  rcases hd : u.ddir <;> rcases ho : td.odirect <;>
    rcases h1 : env.msyncWinResult with _ | e1 <;>
    rcases h2 : env.msyncReqResult with _ | e2 <;>
    rcases h3 : env.madviseReqResult with _ | e3 <;>
    simp [fio_mmapio_queue, hd, ho, h1, h2, h3]

/-- Witness for C8: a read request with `odirect` set where both
cache-drop steps fail: the discard `madvise` appears in the trace, the
last failure's errno 22 is recorded, and the call completes. -/
theorem C8_witness :
    OsCall.madviseCall uRead.mmap_data uRead.xfer_buflen Advice.dontneed ∈
      (fio_mmapio_queue qEnvDropFail tdDirect fWin uRead).2.2.1 ∧
    (fio_mmapio_queue qEnvDropFail tdDirect fWin uRead).2.1.error = 22 ∧
    (fio_mmapio_queue qEnvDropFail tdDirect fWin uRead).2.2.2 =
      FIO_Q_COMPLETED := by
  have h := C8_cache_drop qEnvDropFail tdDirect fWin uRead
  exact ⟨(h.2.1 rfl (by decide)).2.1, (h.2.1 rfl (by decide)).2.2.1 22 rfl,
    h.1⟩

/-- Claim C9: the containment fast path never checks that a base is
present.  After a prepare whose `mmap` fails, the file keeps the
attempted window's nonzero `mmap_sz` and `mmap_off` while `mmap_ptr` is
NULL, and a later contained request skips remapping (empty trace) and
resolves its address against the NULL base — all through the public
prepare interface. -/
theorem C9_null_window_reachable (env1 env2 : OsEnv) (msz : Nat)
    (td : ThreadData) (f : FioFile) (u1 u2 : IoU) (e : Nat)
    (hlen1 : u1.buflen ≤ msz)
    (hmiss : ¬ (u1.offset ≥ f.mmap_off ∧
      u1.offset + u1.buflen < f.mmap_off + f.mmap_sz))
    (hptr : f.mmap_ptr = none)
    (hfail : env1.mmapResult = MapResult.fail e)
    (hlen2 : u2.buflen ≤ msz)
    (hin2 : u2.offset ≥ u1.offset ∧
      u2.offset + u2.buflen < u1.offset + min msz f.io_size) :
    (fio_mmapio_prep env1 msz td f u1).1.mmap_ptr = none ∧
    0 < (fio_mmapio_prep env1 msz td f u1).1.mmap_sz ∧
    (fio_mmapio_prep env1 msz td f u1).1.mmap_off = u1.offset ∧
    (fio_mmapio_prep env2 msz td
      (fio_mmapio_prep env1 msz td f u1).1 u2).2.2.2 = [] ∧
    (fio_mmapio_prep env2 msz td
      (fio_mmapio_prep env1 msz td f u1).1 u2).1 =
        (fio_mmapio_prep env1 msz td f u1).1 ∧
    (fio_mmapio_prep env2 msz td
      (fio_mmapio_prep env1 msz td f u1).1 u2).2.1.mmap_data =
        (0 : Int) + (u2.offset : Int) - (u1.offset : Int)
          - (f.file_offset : Int) := by
  have h1 : (fio_mmapio_prep env1 msz td f u1).1 =
      { mmap_ptr := none, mmap_sz := min msz f.io_size,
        mmap_off := u1.offset, io_size := f.io_size,
        file_offset := f.file_offset } := by
    unfold fio_mmapio_prep
    rw [if_neg (by omega), if_neg hmiss]
    simp only [hptr]
    unfold remapWindow fio_mmap_file
    rw [hfail]
    simp [windowSize_eq_min]
  have h2 := prep_hit env2 msz td
    { mmap_ptr := none, mmap_sz := min msz f.io_size,
      mmap_off := u1.offset, io_size := f.io_size,
      file_offset := f.file_offset } u2 hlen2 hin2
  rw [h1, h2]
  refine ⟨rfl, by simp; omega, rfl, rfl, rfl, by simp [ptrVal]⟩

/-- Witness for C9: `u0`'s prepare fails its `mmap`; the file is left
with window `[0, 256)` and a NULL base, and the contained request
`[10, 30)` is then prepared with no OS call and a NULL-based address. -/
theorem C9_witness :
    (fio_mmapio_prep envMmapFail 256 td0 fFresh u0).1.mmap_ptr = none ∧
    0 < (fio_mmapio_prep envMmapFail 256 td0 fFresh u0).1.mmap_sz ∧
    (fio_mmapio_prep envOk2 256 td0
      (fio_mmapio_prep envMmapFail 256 td0 fFresh u0).1 uIn).2.2.2 = [] ∧
    (fio_mmapio_prep envOk2 256 td0
      (fio_mmapio_prep envMmapFail 256 td0 fFresh u0).1 uIn).2.1.mmap_data =
        (0 : Int) + (10 : Int) - (0 : Int) - (0 : Int) := by
  have h := C9_null_window_reachable envMmapFail envOk2 256 td0 fFresh
    u0 uIn 12 (by decide) (by decide) rfl rfl (by decide) (by decide)
  exact ⟨h.1, h.2.1, h.2.2.2.1, h.2.2.2.2.2⟩

end MmapEngine
